import Mathlib

/-!
Shallow embedding of `src/main.py` ("Daily Song Lyric Sender for Vestaboard").

The program is a sequential pipeline: read configuration from environment
variables, optionally fetch candidate lyric strings from a Google Sheet,
select one at random, ask the VBML compose endpoint to format it into a grid
of character codes, and send that grid to the Vestaboard read-write endpoint.

The outside world (environment variables, the Google Sheets read, the two
HTTP endpoints, the random generator draw) is packaged in a `World` record;
each Python function becomes a Lean function over that record.  A request
that raises `requests.exceptions.RequestException` (or any exception in the
gspread flow) is modelled as the `Except.error` case of the corresponding
oracle.  A run of `main` produces an exit code, a trace of the externally
visible pipeline events in the order they happen, and the error messages
written to stderr.
-/

namespace VestaboardLyrics

/-- The hardcoded list of 10 song lyrics from `src/main.py` lines 17-28
(the fallback if Google Sheets fails). -/
def SONG_LYRICS : List String :=
  [ "The Beatles - \"All you need is love\"",
    "Bob Dylan - \"The answer is blowin' in the wind\"",
    "Queen - \"Is this the real life? Is this just fantasy?\"",
    "John Lennon - \"Imagine all the people living life in peace\"",
    "Simon & Garfunkel - \"Hello darkness, my old friend\"",
    "David Bowie - \"We can be heroes, just for one day\"",
    "Louis Armstrong - \"What a wonderful world\"",
    "Bill Withers - \"Lean on me, when you're not strong\"",
    "Bob Marley - \"Don't worry about a thing\"",
    "Stevie Wonder - \"I just called to say I love you\"" ]

/-- The environment and the remote services a run interacts with.
`env` is `os.environ.get`; `sheets` is the outcome of the whole gspread
flow (credentials file, authorization, opening the sheet, reading the
"lyrics" worksheet via `get_all_values`), either the table of cell values
or an exception message; `vbml` maps the lyric sent to the compose endpoint
to its response (parsed JSON grid, or a request exception); `rw` maps the
grid posted to the read-write endpoint to success or a request exception;
`rand` abstracts the state of the seeded random generator consumed by
`random.choice`. -/
structure World where
  env : String → Option String
  sheets : Except String (List (List String))
  vbml : String → Except String (List (List Int))
  rw : List (List Int) → Except String Unit
  rand : Nat

/-- Python truthiness of a string: `not s` holds exactly when `s` is empty. -/
def truthyStr (s : String) : Bool := !s.isEmpty

/-- Python truthiness of an `os.environ.get` result: `None` and `""` are falsy. -/
def truthyEnv : Option String → Bool
  | none => false
  | some s => truthyStr s

/-- Python's `str.strip()`: drop whitespace characters from both ends. -/
def pyStrip (s : String) : String :=
  String.mk (((s.data.dropWhile Char.isWhitespace).reverse.dropWhile
      Char.isWhitespace).reverse)

/-- `fetch_lyrics_from_google_sheets` from `src/main.py` lines 35-87.
Returns the list of cells of the "formatted" column (header skipped, a cell
kept when the row is long enough and the cell is non-blank after stripping),
and `none` on missing configuration, any exception, an empty table, a
missing "formatted" header, or no usable cell. -/
def fetch_lyrics_from_google_sheets (w : World) : Option (List String) :=
  if truthyEnv (w.env "GOOGLE_SHEET_ID") && truthyEnv (w.env "GOOGLE_CREDENTIALS_FILE") then
    match w.sheets with
    | Except.error _ => none
    | Except.ok all_values =>
      match all_values with
      | [] => none
      | headers :: rest =>
        match headers.findIdx? (fun h => h == "formatted") with
        | none => none
        | some formatted_col_index =>
          let lyrics := rest.filterMap (fun row =>
            match row[formatted_col_index]? with
            | some cell => if truthyStr (pyStrip cell) then some cell else none
            | none => none)
          if lyrics.isEmpty then none else some lyrics
  else none

/-- `get_random_lyric` from `src/main.py` lines 90-94.  `random.choice`
is abstracted as indexing by the generator draw modulo the list length;
`none` models the `IndexError` that `random.choice` raises on an empty
sequence.  A `none` argument selects from `SONG_LYRICS`. -/
def get_random_lyric (rand : Nat) (lyrics : Option (List String)) : Option String :=
  let l := match lyrics with
    | none => SONG_LYRICS
    | some xs => xs
  l[rand % l.length]?

/-- `format_lyric_with_vbml` from `src/main.py` lines 97-138: the parsed
grid on success, `none` plus a stderr message on a request exception. -/
def format_lyric_with_vbml (w : World) (lyric : String) :
    Option (List (List Int)) × List String :=
  match w.vbml lyric with
  | Except.ok character_codes => (some character_codes, [])
  | Except.error e => (none, ["Error formatting lyric with VBML: " ++ e])

/-- `send_to_vestaboard` from `src/main.py` lines 141-169: `true` on
success, `false` plus a stderr message on a request exception.  The grid is
posted to the read-write endpoint exactly as received. -/
def send_to_vestaboard (w : World) (character_codes : List (List Int)) :
    Bool × List String :=
  match w.rw character_codes with
  | Except.ok _ => (true, [])
  | Except.error e => (false, ["Error sending message to Vestaboard: " ++ e])

/-- The externally visible pipeline steps of a run, in order:
the call to `fetch_lyrics_from_google_sheets`, the selection of a lyric,
the POST to the VBML compose endpoint, the POST to the read-write endpoint. -/
inductive Event where
  | fetchAttempt : Event
  | select : String → Event
  | formatCall : String → Event
  | writeCall : List (List Int) → Event
deriving DecidableEq

/-- Outcome of one run of `main`: the process exit code, the ordered trace
of pipeline events, and the error messages written to stderr. -/
structure RunResult where
  exitCode : Nat
  trace : List Event
  errLog : List String
deriving DecidableEq

/-- The lyric pool `main` ends up with (`src/main.py` lines 182-188):
the fetched list when it is truthy, else `SONG_LYRICS`. -/
def poolOf (w : World) : List String :=
  match fetch_lyrics_from_google_sheets w with
  | some lyrics => if lyrics.isEmpty then SONG_LYRICS else lyrics
  | none => SONG_LYRICS

/-- `main` from `src/main.py` lines 172-210.  Exits 1 when
`VESTABOARD_API_KEY` is missing or empty; otherwise fetches the pool,
selects a lyric, formats it, sends the grid, and exits 1 on a failed
format or send, 0 on success.  The unreachable `none` selection case
models the uncaught `IndexError` (Python exits 1 on it). -/
def main (w : World) : RunResult :=
  if truthyEnv (w.env "VESTABOARD_API_KEY") then
    let pool := poolOf w
    match get_random_lyric w.rand (some pool) with
    | none =>
        ⟨1, [Event.fetchAttempt], ["IndexError: list index out of range"]⟩
    | some lyric =>
      let fmt := format_lyric_with_vbml w lyric
      match fmt.fst with
      | none =>
          ⟨1, [Event.fetchAttempt, Event.select lyric, Event.formatCall lyric],
            fmt.snd ++ ["Failed to format lyric. Exiting."]⟩
      | some character_codes =>
        let sent := send_to_vestaboard w character_codes
        if sent.fst then
          ⟨0, [Event.fetchAttempt, Event.select lyric, Event.formatCall lyric,
               Event.writeCall character_codes], []⟩
        else
          ⟨1, [Event.fetchAttempt, Event.select lyric, Event.formatCall lyric,
               Event.writeCall character_codes],
            sent.snd ++ ["Failed to send message to Vestaboard. Exiting."]⟩
  else ⟨1, [], ["Error: VESTABOARD_API_KEY environment variable not set"]⟩

/-- The spec's description of the column query, stated independently of the
code: skip the header row, read each remaining row's cell of the "formatted"
column (an absent cell reads as the empty string), keep the cells that are
non-blank after stripping whitespace, preserving row order; `none` when the
table is empty, the header row has no "formatted" column, or no cell is
kept.  Used only to compare against `fetch_lyrics_from_google_sheets`. -/
def formatted_column_query_spec (table : List (List String)) : Option (List String) :=
  match table with
  | [] => none
  | headers :: rest =>
    match headers.findIdx? (fun h => h == "formatted") with
    | none => none
    | some i =>
      let cells := (rest.map (fun row => row.getD i "")).filter
        (fun c => !(pyStrip c).isEmpty)
      if cells = [] then none else some cells

/-- A sheet table with a "formatted" column holding two usable cells, one
blank cell and one short row. -/
def okSheets : List (List String) :=
  [["song", "formatted"], ["x", "hello"], ["y", "  "], ["z"], ["u", "world"]]

/-- A fully configured world where every remote call succeeds. -/
def baseW : World where
  env := fun _ => some "configured"
  sheets := Except.ok okSheets
  vbml := fun _ => Except.ok [[1, 2], [3]]
  rw := fun _ => Except.ok ()
  rand := 0

/-- Override a single environment variable of a world. -/
def setEnv (w : World) (k : String) (v : Option String) : World :=
  { w with env := fun n => if n == k then v else w.env n }

/-- A world where the VBML compose request raises a request exception. -/
def fmtFailW : World := { baseW with vbml := fun _ => Except.error "503 Service Unavailable" }

/-- A world where the read-write request raises a request exception. -/
def sendFailW : World := { baseW with rw := fun _ => Except.error "401 Unauthorized" }

/-- A world where the compose endpoint answers with a grid whose dimensions
do not match the 6-row split-flap display. -/
def badGridW : World := { baseW with vbml := fun _ => Except.ok [[9]] }

/-- Event `a` occurs strictly before event `b` in the trace `xs`. -/
def precedes (xs : List Event) (a b : Event) : Prop :=
  ∃ i j : Nat, i < j ∧ xs[i]? = some a ∧ xs[j]? = some b

/- Helper lemmas about the embedded program, shared by the claim theorems. -/

lemma main_no_key (w : World) (hk : truthyEnv (w.env "VESTABOARD_API_KEY") = false) :
    main w = ⟨1, [], ["Error: VESTABOARD_API_KEY environment variable not set"]⟩ := by
  simp [main, hk]

lemma main_success (w : World) (hk : truthyEnv (w.env "VESTABOARD_API_KEY") = true)
    (l : String) (hsel : get_random_lyric w.rand (some (poolOf w)) = some l)
    (g : List (List Int)) (hf : (format_lyric_with_vbml w l).fst = some g)
    (hs : (send_to_vestaboard w g).fst = true) :
    main w = ⟨0, [Event.fetchAttempt, Event.select l, Event.formatCall l,
      Event.writeCall g], []⟩ := by
  simp [main, hk, hsel, hf, hs]

lemma main_format_fail (w : World) (hk : truthyEnv (w.env "VESTABOARD_API_KEY") = true)
    (l : String) (hsel : get_random_lyric w.rand (some (poolOf w)) = some l)
    (hf : (format_lyric_with_vbml w l).fst = none) :
    main w = ⟨1, [Event.fetchAttempt, Event.select l, Event.formatCall l],
      (format_lyric_with_vbml w l).snd ++ ["Failed to format lyric. Exiting."]⟩ := by
  simp [main, hk, hsel, hf]

lemma main_send_fail (w : World) (hk : truthyEnv (w.env "VESTABOARD_API_KEY") = true)
    (l : String) (hsel : get_random_lyric w.rand (some (poolOf w)) = some l)
    (g : List (List Int)) (hf : (format_lyric_with_vbml w l).fst = some g)
    (hs : (send_to_vestaboard w g).fst = false) :
    main w = ⟨1, [Event.fetchAttempt, Event.select l, Event.formatCall l,
      Event.writeCall g],
      (send_to_vestaboard w g).snd ++ ["Failed to send message to Vestaboard. Exiting."]⟩ := by
  simp [main, hk, hsel, hf, hs]

lemma get_random_mem (r : Nat) (l : List String) (s : String)
    (h : get_random_lyric r (some l) = some s) : s ∈ l := by
  simp only [get_random_lyric] at h
  exact List.getElem?_mem h

lemma get_random_some (r : Nat) (l : List String) (hl : l ≠ []) :
    ∃ s, get_random_lyric r (some l) = some s ∧ s ∈ l := by
  have hlen : 0 < l.length := List.length_pos.mpr hl
  have hlt : r % l.length < l.length := Nat.mod_lt _ hlen
  refine ⟨l[r % l.length], ?_, List.getElem_mem hlt⟩
  simp only [get_random_lyric]
  exact List.getElem?_eq_getElem hlt

lemma fetch_ne_some_nil (w : World) : fetch_lyrics_from_google_sheets w ≠ some [] := by
  intro h
  simp only [fetch_lyrics_from_google_sheets] at h
  split at h
  · split at h
    · exact Option.noConfusion h
    · split at h
      · exact Option.noConfusion h
      · split at h
        · exact Option.noConfusion h
        · split at h
          · exact Option.noConfusion h
          · rename_i hne
            rw [Option.some_inj.mp h] at hne
            simp at hne
  · exact Option.noConfusion h

lemma poolOf_ne_nil (w : World) : poolOf w ≠ [] := by
  simp only [poolOf]
  split
  · rename_i l _
    split
    · decide
    · rename_i hemp
      simp [List.isEmpty_iff] at hemp
      exact hemp
  · decide

lemma fetch_congr (w w' : World)
    (h1 : w.env "GOOGLE_SHEET_ID" = w'.env "GOOGLE_SHEET_ID")
    (h2 : w.env "GOOGLE_CREDENTIALS_FILE" = w'.env "GOOGLE_CREDENTIALS_FILE")
    (hs : w.sheets = w'.sheets) :
    fetch_lyrics_from_google_sheets w = fetch_lyrics_from_google_sheets w' := by
  simp only [fetch_lyrics_from_google_sheets]
  rw [h1, h2, hs]

lemma fmt_congr (w w' : World) (hv : w.vbml = w'.vbml) :
    format_lyric_with_vbml w = format_lyric_with_vbml w' := by
  funext l
  simp only [format_lyric_with_vbml]
  rw [hv]

lemma send_congr (w w' : World) (hr : w.rw = w'.rw) :
    send_to_vestaboard w = send_to_vestaboard w' := by
  funext g
  simp only [send_to_vestaboard]
  rw [hr]

lemma main_congr (w w' : World)
    (hk : w.env "VESTABOARD_API_KEY" = w'.env "VESTABOARD_API_KEY")
    (h1 : w.env "GOOGLE_SHEET_ID" = w'.env "GOOGLE_SHEET_ID")
    (h2 : w.env "GOOGLE_CREDENTIALS_FILE" = w'.env "GOOGLE_CREDENTIALS_FILE")
    (hs : w.sheets = w'.sheets) (hv : w.vbml = w'.vbml) (hr : w.rw = w'.rw)
    (hrand : w.rand = w'.rand) :
    main w = main w' := by
  have hpool : poolOf w = poolOf w' := by
    simp only [poolOf]
    rw [fetch_congr w w' h1 h2 hs]
  simp only [main]
  rw [hk, hpool, hrand, fmt_congr w w' hv, send_congr w w' hr]

lemma extract_eq (i : Nat) (rows : List (List String)) :
    rows.filterMap (fun row => match row[i]? with
      | some cell => if truthyStr (pyStrip cell) then some cell else none
      | none => none)
    = (rows.map (fun row => row.getD i "")).filter (fun c => !(pyStrip c).isEmpty) := by
  induction rows with
  | nil => rfl
  | cons r rs ih =>
    have hds : r.getD i "" = (r[i]?).getD "" := List.getD_eq_getElem?_getD r i ""
    cases hg : r[i]? with
    | none =>
      rw [hg] at hds
      simp only [List.filterMap_cons, List.map_cons, List.filter_cons, hg, hds]
      simpa [pyStrip] using ih
    | some cell =>
      rw [hg] at hds
      cases hc : truthyStr (pyStrip cell) with
      | true =>
        have hc' : (!(pyStrip cell).isEmpty) = true := hc
        simp only [List.filterMap_cons, List.map_cons, List.filter_cons, hg, hds,
          Option.getD_some, hc, hc', if_true]
        simp [ih]
      | false =>
        have hc' : (!(pyStrip cell).isEmpty) = false := hc
        simp only [List.filterMap_cons, List.map_cons, List.filter_cons, hg, hds,
          Option.getD_some, hc, hc']
        simp [ih]

/-- Claim C1: if sourcing candidate strings from the remote spreadsheet fails
in any way (missing configuration, an exception, an empty sheet, a missing
"formatted" column, or no usable cell — every "formatted" cell blank after
stripping or missing), `fetch_lyrics_from_google_sheets` returns `none`; and
whenever it returns `none`, `main` uses the hardcoded `SONG_LYRICS` list as
the pool for selection and never aborts because of the spreadsheet failure:
with the API key present a lyric from `SONG_LYRICS` is selected, and any
nonzero exit is attributable to a failed format or write call. -/
theorem c1_spreadsheet_failure_fallback (w : World) :
    ((truthyEnv (w.env "GOOGLE_SHEET_ID") = false ∨
      truthyEnv (w.env "GOOGLE_CREDENTIALS_FILE") = false ∨
      (∃ e, w.sheets = Except.error e) ∨
      w.sheets = Except.ok [] ∨
      (∃ headers rest, w.sheets = Except.ok (headers :: rest) ∧ "formatted" ∉ headers) ∨
      (∃ headers rest i, w.sheets = Except.ok (headers :: rest) ∧
        headers.findIdx? (fun h => h == "formatted") = some i ∧
        ∀ row ∈ rest, ∀ cell, row[i]? = some cell →
          truthyStr (pyStrip cell) = false)) →
      fetch_lyrics_from_google_sheets w = none) ∧
    (fetch_lyrics_from_google_sheets w = none →
      poolOf w = SONG_LYRICS ∧
      (truthyEnv (w.env "VESTABOARD_API_KEY") = true →
        ∃ l, l ∈ SONG_LYRICS ∧ Event.select l ∈ (main w).trace ∧
          ((main w).exitCode ≠ 0 →
            (format_lyric_with_vbml w l).fst = none ∨
            ∃ g, (format_lyric_with_vbml w l).fst = some g ∧
              (send_to_vestaboard w g).fst = false))) := by
  constructor
  · rintro (h | h | ⟨e, h⟩ | h | ⟨headers, rest, h, hmem⟩ |
      ⟨headers, rest, i, h, hidx, hblank⟩) <;>
      simp only [fetch_lyrics_from_google_sheets]
    · simp [h]
    · simp [h]
    · simp [h]
    · simp [h]
    · have hidx : headers.findIdx? (fun x => x == "formatted") = none := by
        rw [List.findIdx?_eq_none_iff]
        intro x hx
        simp only [beq_eq_false_iff_ne, ne_eq]
        intro heq
        exact hmem (heq ▸ hx)
      simp [h, hidx]
    · have hnil : rest.filterMap (fun row => match row[i]? with
          | some cell => if truthyStr (pyStrip cell) then some cell else none
          | none => none) = [] := by
        rw [List.filterMap_eq_nil_iff]
        intro row hrow
        cases hc : row[i]? with
        | none => rfl
        | some cell => simp [hblank row hrow cell hc]
      simp [h, hidx, hnil]
  · intro hfetch
    have hpool : poolOf w = SONG_LYRICS := by simp [poolOf, hfetch]
    refine ⟨hpool, fun hk => ?_⟩
    obtain ⟨l, hsel, hmem⟩ := get_random_some w.rand (poolOf w) (poolOf_ne_nil w)
    rw [hpool] at hmem
    cases hf : (format_lyric_with_vbml w l).fst with
    | none =>
      rw [main_format_fail w hk l hsel hf]
      exact ⟨l, hmem, by simp, fun _ => Or.inl hf⟩
    | some g =>
      cases hs : (send_to_vestaboard w g).fst with
      | false =>
        rw [main_send_fail w hk l hsel g hf hs]
        exact ⟨l, hmem, by simp, fun _ => Or.inr ⟨g, hf, hs⟩⟩
      | true =>
        rw [main_success w hk l hsel g hf hs]
        refine ⟨l, hmem, by simp, fun hne => absurd rfl hne⟩

/-- Claim C1 witness: the claim instantiated at a concrete world whose
`GOOGLE_SHEET_ID` is unset, so the fetch fails and the fallback is used. -/
theorem c1_witness :
    ((truthyEnv ((setEnv baseW "GOOGLE_SHEET_ID" none).env "GOOGLE_SHEET_ID") = false ∨
      truthyEnv ((setEnv baseW "GOOGLE_SHEET_ID" none).env "GOOGLE_CREDENTIALS_FILE") = false ∨
      (∃ e, (setEnv baseW "GOOGLE_SHEET_ID" none).sheets = Except.error e) ∨
      (setEnv baseW "GOOGLE_SHEET_ID" none).sheets = Except.ok [] ∨
      (∃ headers rest, (setEnv baseW "GOOGLE_SHEET_ID" none).sheets = Except.ok (headers :: rest) ∧
        "formatted" ∉ headers) ∨
      (∃ headers rest i,
        (setEnv baseW "GOOGLE_SHEET_ID" none).sheets = Except.ok (headers :: rest) ∧
        headers.findIdx? (fun h => h == "formatted") = some i ∧
        ∀ row ∈ rest, ∀ cell, row[i]? = some cell →
          truthyStr (pyStrip cell) = false)) →
      fetch_lyrics_from_google_sheets (setEnv baseW "GOOGLE_SHEET_ID" none) = none) ∧
    (fetch_lyrics_from_google_sheets (setEnv baseW "GOOGLE_SHEET_ID" none) = none →
      poolOf (setEnv baseW "GOOGLE_SHEET_ID" none) = SONG_LYRICS ∧
      (truthyEnv ((setEnv baseW "GOOGLE_SHEET_ID" none).env "VESTABOARD_API_KEY") = true →
        ∃ l, l ∈ SONG_LYRICS ∧
          Event.select l ∈ (main (setEnv baseW "GOOGLE_SHEET_ID" none)).trace ∧
          ((main (setEnv baseW "GOOGLE_SHEET_ID" none)).exitCode ≠ 0 →
            (format_lyric_with_vbml (setEnv baseW "GOOGLE_SHEET_ID" none) l).fst = none ∨
            ∃ g, (format_lyric_with_vbml (setEnv baseW "GOOGLE_SHEET_ID" none) l).fst = some g ∧
              (send_to_vestaboard (setEnv baseW "GOOGLE_SHEET_ID" none) g).fst = false))) :=
  c1_spreadsheet_failure_fallback (setEnv baseW "GOOGLE_SHEET_ID" none)

/-- Claim C2: for every non-empty list of strings, `get_random_lyric`
returns an element of that list; called with no list (`None`), it selects
from the fixed fallback list `SONG_LYRICS`, which has exactly ten strings. -/
theorem c2_random_choice_membership :
    (∀ (r : Nat) (l : List String), l ≠ [] →
      ∃ s, s ∈ l ∧ get_random_lyric r (some l) = some s) ∧
    (∀ r : Nat, ∃ s, s ∈ SONG_LYRICS ∧ get_random_lyric r none = some s) ∧
    SONG_LYRICS.length = 10 := by
  refine ⟨fun r l hl => ?_, fun r => ?_, by decide⟩
  · obtain ⟨s, h1, h2⟩ := get_random_some r l hl
    exact ⟨s, h2, h1⟩
  · have hdef : get_random_lyric r none = get_random_lyric r (some SONG_LYRICS) := rfl
    rw [hdef]
    obtain ⟨s, h1, h2⟩ := get_random_some r SONG_LYRICS (by decide)
    exact ⟨s, h2, h1⟩

/-- Claim C2 witness: the claim instantiated at a concrete draw and a
concrete two-element list. -/
theorem c2_witness :
    ∃ s, s ∈ ["all my life", "heat waves"] ∧
      get_random_lyric 7 (some ["all my life", "heat waves"]) = some s :=
  c2_random_choice_membership.1 7 ["all my life", "heat waves"] (by decide)

/-- Claim C3: on any failure of the two pipeline HTTP requests (the
formatting call or the write call) the program records the error on stderr
and terminates with exit status 1; a failed pipeline HTTP call always
produces a non-zero exit code. -/
theorem c3_http_failure_nonzero_exit (w : World)
    (hk : truthyEnv (w.env "VESTABOARD_API_KEY") = true)
    (l : String) (hsel : get_random_lyric w.rand (some (poolOf w)) = some l) :
    ((format_lyric_with_vbml w l).fst = none →
      (main w).exitCode = 1 ∧ (main w).errLog ≠ []) ∧
    (∀ g, (format_lyric_with_vbml w l).fst = some g →
      (send_to_vestaboard w g).fst = false →
      (main w).exitCode = 1 ∧ (main w).errLog ≠ []) := by
  constructor
  · intro hf
    rw [main_format_fail w hk l hsel hf]
    exact ⟨rfl, by simp⟩
  · intro g hf hs
    rw [main_send_fail w hk l hsel g hf hs]
    exact ⟨rfl, by simp⟩

/-- Claim C3 witness: the claim instantiated at a concrete world whose
VBML compose request fails; the selected lyric there is "hello". -/
theorem c3_witness :
    ((format_lyric_with_vbml fmtFailW "hello").fst = none →
      (main fmtFailW).exitCode = 1 ∧ (main fmtFailW).errLog ≠ []) ∧
    (∀ g, (format_lyric_with_vbml fmtFailW "hello").fst = some g →
      (send_to_vestaboard fmtFailW g).fst = false →
      (main fmtFailW).exitCode = 1 ∧ (main fmtFailW).errLog ≠ []) :=
  c3_http_failure_nonzero_exit fmtFailW (by decide) "hello" (by decide)

/-- Claim C4: lyric selection is deterministic in the random seed: two runs
whose worlds agree on the generator draw and on the lyric pool select the
same string, whatever else differs between the worlds. -/
theorem c4_seed_determinism (w₁ w₂ : World) (hr : w₁.rand = w₂.rand)
    (hp : poolOf w₁ = poolOf w₂) :
    get_random_lyric w₁.rand (some (poolOf w₁)) =
      get_random_lyric w₂.rand (some (poolOf w₂)) := by
  rw [hr, hp]

/-- Claim C4 witness: two concrete worlds that differ in the write endpoint
but share the seed and the pool select the same lyric. -/
theorem c4_witness :
    get_random_lyric baseW.rand (some (poolOf baseW)) =
      get_random_lyric sendFailW.rand (some (poolOf sendFailW)) :=
  c4_seed_determinism baseW sendFailW rfl (by decide)

/-- Claim C5: control flow is strictly sequential with error short-circuits
only: a write-endpoint call appears in the trace only for a grid the
formatting call returned successfully, strictly after the formatting call,
and a formatting call appears only strictly after the lyric selection. -/
theorem c5_sequential_pipeline (w : World) :
    (∀ g, Event.writeCall g ∈ (main w).trace →
      ∃ l, (format_lyric_with_vbml w l).fst = some g ∧
        precedes (main w).trace (Event.select l) (Event.formatCall l) ∧
        precedes (main w).trace (Event.formatCall l) (Event.writeCall g)) ∧
    (∀ l, Event.formatCall l ∈ (main w).trace →
      precedes (main w).trace (Event.select l) (Event.formatCall l)) := by
  by_cases hk : truthyEnv (w.env "VESTABOARD_API_KEY") = true
  · obtain ⟨l, hsel, -⟩ := get_random_some w.rand (poolOf w) (poolOf_ne_nil w)
    cases hf : (format_lyric_with_vbml w l).fst with
    | none =>
      rw [main_format_fail w hk l hsel hf]
      constructor
      · intro g hg
        simp at hg
      · intro l' hl'
        simp at hl'
        subst hl'
        exact ⟨1, 2, by omega, rfl, rfl⟩
    | some g0 =>
      cases hs : (send_to_vestaboard w g0).fst with
      | false =>
        rw [main_send_fail w hk l hsel g0 hf hs]
        constructor
        · intro g hg
          simp at hg
          subst hg
          exact ⟨l, hf, ⟨1, 2, by omega, rfl, rfl⟩, ⟨2, 3, by omega, rfl, rfl⟩⟩
        · intro l' hl'
          simp at hl'
          subst hl'
          exact ⟨1, 2, by omega, rfl, rfl⟩
      | true =>
        rw [main_success w hk l hsel g0 hf hs]
        constructor
        · intro g hg
          simp at hg
          subst hg
          exact ⟨l, hf, ⟨1, 2, by omega, rfl, rfl⟩, ⟨2, 3, by omega, rfl, rfl⟩⟩
        · intro l' hl'
          simp at hl'
          subst hl'
          exact ⟨1, 2, by omega, rfl, rfl⟩
  · have hk' : truthyEnv (w.env "VESTABOARD_API_KEY") = false := by
      simpa using hk
    rw [main_no_key w hk']
    constructor
    · intro g hg
      simp at hg
    · intro l hl
      simp at hl

/-- Claim C5 witness: in the fully successful concrete world the write of
the composed grid is preceded by its formatting call, itself preceded by
the selection. -/
theorem c5_witness :
    ∃ l, (format_lyric_with_vbml baseW l).fst = some [[1, 2], [3]] ∧
      precedes (main baseW).trace (Event.select l) (Event.formatCall l) ∧
      precedes (main baseW).trace (Event.formatCall l) (Event.writeCall [[1, 2], [3]]) :=
  (c5_sequential_pipeline baseW).1 [[1, 2], [3]] (by decide)

/-- Claim C6: with the spreadsheet configured and the read succeeding,
`fetch_lyrics_from_google_sheets` computes exactly the spec's column query:
the cells of the "formatted" column in row order, header skipped, keeping
the cells that exist and are non-blank after stripping, and `none` when the
table is empty, the header lacks "formatted", or no cell qualifies. -/
theorem c6_formatted_column_query (w : World)
    (h1 : truthyEnv (w.env "GOOGLE_SHEET_ID") = true)
    (h2 : truthyEnv (w.env "GOOGLE_CREDENTIALS_FILE") = true)
    (tbl : List (List String)) (hs : w.sheets = Except.ok tbl) :
    fetch_lyrics_from_google_sheets w = formatted_column_query_spec tbl := by
  simp only [fetch_lyrics_from_google_sheets, formatted_column_query_spec, h1, h2, hs,
    Bool.and_self, if_true]
  cases tbl with
  | nil => rfl
  | cons headers rest =>
    cases hidx : headers.findIdx? (fun h => h == "formatted") with
    | none => simp [hidx]
    | some i =>
      simp only [hidx, extract_eq i rest, List.isEmpty_iff]

/-- Claim C6 witness: the refinement instantiated at the concrete sheet
`okSheets`, which has blank and short rows to skip. -/
theorem c6_witness :
    fetch_lyrics_from_google_sheets baseW = formatted_column_query_spec okSheets :=
  c6_formatted_column_query baseW (by decide) (by decide) okSheets rfl

/-- Claim C7 counterexample: the claim says configuration comes from exactly
two environment variables and the two vendor endpoints are the only
external interfaces; in fact three pairwise distinct environment variables
each observably change the behavior of `main`, and so does the spreadsheet
read, a third external interface. -/
theorem c7_counterexample :
    ("VESTABOARD_API_KEY" ≠ "GOOGLE_SHEET_ID" ∧
     "VESTABOARD_API_KEY" ≠ "GOOGLE_CREDENTIALS_FILE" ∧
     "GOOGLE_SHEET_ID" ≠ "GOOGLE_CREDENTIALS_FILE") ∧
    main (setEnv baseW "VESTABOARD_API_KEY" none) ≠ main baseW ∧
    main (setEnv baseW "GOOGLE_SHEET_ID" none) ≠ main baseW ∧
    main (setEnv baseW "GOOGLE_CREDENTIALS_FILE" none) ≠ main baseW ∧
    main { baseW with sheets := Except.error "network unreachable" } ≠ main baseW := by
  decide

/-- Claim C7 as amended: the program's configuration is supplied by exactly
three environment variables — `VESTABOARD_API_KEY`, `GOOGLE_SHEET_ID` and
`GOOGLE_CREDENTIALS_FILE`: the behavior of `main` depends on no other
environment variable (given equal remote services and seed), and each of
the three observably matters. -/
theorem c7_amended_three_env_vars :
    (∀ w w' : World,
      w.env "VESTABOARD_API_KEY" = w'.env "VESTABOARD_API_KEY" →
      w.env "GOOGLE_SHEET_ID" = w'.env "GOOGLE_SHEET_ID" →
      w.env "GOOGLE_CREDENTIALS_FILE" = w'.env "GOOGLE_CREDENTIALS_FILE" →
      w.sheets = w'.sheets → w.vbml = w'.vbml → w.rw = w'.rw → w.rand = w'.rand →
      main w = main w') ∧
    main (setEnv baseW "VESTABOARD_API_KEY" none) ≠ main baseW ∧
    main (setEnv baseW "GOOGLE_SHEET_ID" none) ≠ main baseW ∧
    main (setEnv baseW "GOOGLE_CREDENTIALS_FILE" none) ≠ main baseW :=
  ⟨main_congr, by decide, by decide, by decide⟩

/-- Claim C7 witness: unsetting an environment variable other than the
three configuration variables leaves the run unchanged. -/
theorem c7_amended_witness :
    main (setEnv baseW "SOME_OTHER_VARIABLE" none) = main baseW :=
  c7_amended_three_env_vars.1 (setEnv baseW "SOME_OTHER_VARIABLE" none) baseW
    (by decide) (by decide) (by decide) rfl rfl rfl rfl

/-- Claim C8: the program enforces no invariant on the grid's dimensions —
whatever grid the formatting call returns, the write call transmits exactly
that grid, with no check of its row or column counts. -/
theorem c8_grid_sent_verbatim (w : World)
    (hk : truthyEnv (w.env "VESTABOARD_API_KEY") = true)
    (l : String) (hsel : get_random_lyric w.rand (some (poolOf w)) = some l)
    (g : List (List Int)) (hf : (format_lyric_with_vbml w l).fst = some g) :
    Event.writeCall g ∈ (main w).trace := by
  cases hs : (send_to_vestaboard w g).fst with
  | false =>
    rw [main_send_fail w hk l hsel g hf hs]
    simp
  | true =>
    rw [main_success w hk l hsel g hf hs]
    simp

/-- Claim C8 witness: a composed grid of one single-cell row — nothing like
the display's 6 rows of 22 columns — is still transmitted verbatim. -/
theorem c8_witness : Event.writeCall [[9]] ∈ (main badGridW).trace :=
  c8_grid_sent_verbatim badGridW (by decide) "hello" (by decide) [[9]] (by decide)

/-- Claim C9: the list selected from in `main` is always non-empty:
the fetch never returns an empty list (`none` stands in for every empty
case), the pool is never empty, and the random choice never hits the
empty-sequence error. -/
theorem c9_selection_pool_never_empty (w : World) :
    fetch_lyrics_from_google_sheets w ≠ some [] ∧ poolOf w ≠ [] ∧
    ∃ l, get_random_lyric w.rand (some (poolOf w)) = some l ∧ l ∈ poolOf w :=
  ⟨fetch_ne_some_nil w, poolOf_ne_nil w,
    get_random_some w.rand (poolOf w) (poolOf_ne_nil w)⟩

/-- Claim C9 witness: the guarantee instantiated at the concrete world. -/
theorem c9_witness :
    fetch_lyrics_from_google_sheets baseW ≠ some [] ∧ poolOf baseW ≠ [] ∧
    ∃ l, get_random_lyric baseW.rand (some (poolOf baseW)) = some l ∧ l ∈ poolOf baseW :=
  c9_selection_pool_never_empty baseW

/-- Claim C10: when `VESTABOARD_API_KEY` is unset or empty, the program
logs the error and exits with status 1 before sourcing any lyrics, before
selecting a lyric, and before making any HTTP request: the trace is empty. -/
theorem c10_missing_api_key_early_exit (w : World)
    (hk : truthyEnv (w.env "VESTABOARD_API_KEY") = false) :
    (main w).exitCode = 1 ∧ (main w).trace = [] ∧
    (main w).errLog = ["Error: VESTABOARD_API_KEY environment variable not set"] ∧
    Event.fetchAttempt ∉ (main w).trace ∧
    (∀ l, Event.select l ∉ (main w).trace) ∧
    (∀ l, Event.formatCall l ∉ (main w).trace) ∧
    (∀ g, Event.writeCall g ∉ (main w).trace) := by
  rw [main_no_key w hk]
  refine ⟨rfl, rfl, rfl, by simp, fun l => by simp, fun l => by simp, fun g => by simp⟩

/-- Claim C10 witness: the empty-string case of the API key at the concrete
world. -/
theorem c10_witness :
    (main (setEnv baseW "VESTABOARD_API_KEY" (some ""))).exitCode = 1 ∧
    (main (setEnv baseW "VESTABOARD_API_KEY" (some ""))).trace = [] ∧
    (main (setEnv baseW "VESTABOARD_API_KEY" (some ""))).errLog =
      ["Error: VESTABOARD_API_KEY environment variable not set"] ∧
    Event.fetchAttempt ∉ (main (setEnv baseW "VESTABOARD_API_KEY" (some ""))).trace ∧
    (∀ l, Event.select l ∉ (main (setEnv baseW "VESTABOARD_API_KEY" (some ""))).trace) ∧
    (∀ l, Event.formatCall l ∉ (main (setEnv baseW "VESTABOARD_API_KEY" (some ""))).trace) ∧
    (∀ g, Event.writeCall g ∉ (main (setEnv baseW "VESTABOARD_API_KEY" (some ""))).trace) :=
  c10_missing_api_key_early_exit (setEnv baseW "VESTABOARD_API_KEY" (some "")) (by decide)

end VestaboardLyrics
